import Mathlib

/-!
# Verification of the personal-diet-tracker client logic

This file gives a shallow embedding, in Lean 4, of the validation schemas,
derived-field computations, draft persistence, submission handlers, proxy
endpoints and meal-log persistence of the personal-diet-tracker repository,
and proves (or refutes) the spec claims about them.

Numbers entered in forms are modelled as rationals (`ℚ`); absent / unset
JavaScript values (`undefined`, `null`, cleared inputs) are modelled as
`Option.none`.  `Math.round` on a non-negative rational is `⌊q + 1/2⌋`.
-/

set_option maxHeartbeats 1000000

/-- JavaScript `Math.round` for the non-negative values arising here:
round half away from zero, i.e. `⌊q + 1/2⌋`. -/
def jsRound (q : ℚ) : ℤ := ⌊q + 1/2⌋

/-! ## Shared enumerations (from the Zod enums in the sources) -/

/-- `z.enum(['male','female','other'])`. -/
inductive Gender | male | female | other
deriving DecidableEq

/-- `z.enum(['sedentary','lightly_active','moderately_active','very_active','extra_active'])`. -/
inductive ActivityLevel
  | sedentary | lightly_active | moderately_active | very_active | extra_active
deriving DecidableEq

/-- `z.enum(['beginner','intermediate','advanced'])`. -/
inductive FitnessLevel | beginner | intermediate | advanced
deriving DecidableEq

/-- `z.enum(['lose_weight','maintain_weight','gain_weight','build_muscle'])`. -/
inductive GoalType | lose_weight | maintain_weight | gain_weight | build_muscle
deriving DecidableEq

/-- `z.enum(['daily','weekly','none'])` (meal-prep preference). -/
inductive MealPrepPreference | daily | weekly | noPrep
deriving DecidableEq

/-! ## `goalSettingSchema` (src/utils/validation.ts, claim C1)

The schema has five optional numeric fields with range checks, then a
`.refine` that sums the three macro ratios (an unset ratio contributes `0`
via `|| 0`) and fails when the sum is positive and different from `100`,
attaching its single issue to the path `['targetProteinRatio']`.
Zod runs the refinement only when all base field checks pass. -/

/-- The form inputs of the goal-setting form (`GoalSettingInputs`);
every field is optional in `goalSettingSchema`. -/
structure GoalSettingInputs where
  targetWeightKg : Option ℚ
  targetCalories : Option ℚ
  targetProteinRatio : Option ℚ
  targetCarbsRatio : Option ℚ
  targetFatRatio : Option ℚ
deriving DecidableEq

/-- An optional Zod number field with `.min lo` and `.max hi`:
absent passes, present must lie in `[lo, hi]`. -/
def optRange (lo hi : ℚ) : Option ℚ → Bool
  | none => true
  | some x => decide (lo ≤ x) && decide (x ≤ hi)

/-- The base (pre-refinement) issues of `goalSettingSchema`, as the list of
field paths that fail their range check. -/
def goalFieldIssues (g : GoalSettingInputs) : List String :=
  (if optRange 20 300 g.targetWeightKg then [] else ["targetWeightKg"]) ++
  (if optRange 500 5000 g.targetCalories then [] else ["targetCalories"]) ++
  (if optRange 0 100 g.targetProteinRatio then [] else ["targetProteinRatio"]) ++
  (if optRange 0 100 g.targetCarbsRatio then [] else ["targetCarbsRatio"]) ++
  (if optRange 0 100 g.targetFatRatio then [] else ["targetFatRatio"])

/-- `totalRatio` of the refinement:
`(targetProteinRatio || 0) + (targetCarbsRatio || 0) + (targetFatRatio || 0)`. -/
def totalRatio (g : GoalSettingInputs) : ℚ :=
  g.targetProteinRatio.getD 0 + g.targetCarbsRatio.getD 0 + g.targetFatRatio.getD 0

/-- The `.refine` predicate: fails exactly when `totalRatio > 0 && totalRatio !== 100`. -/
def macroRefineOk (g : GoalSettingInputs) : Bool :=
  !(decide (0 < totalRatio g) && decide (totalRatio g ≠ 100))

/-- All issues produced by `goalSettingSchema.parse`: base issues if any,
otherwise the single refinement issue at path `targetProteinRatio`. -/
def goalSettingIssues (g : GoalSettingInputs) : List String :=
  if goalFieldIssues g = [] then
    (if macroRefineOk g then [] else ["targetProteinRatio"])
  else goalFieldIssues g

/-- Schema validation succeeds iff no issue is produced. -/
def goalSettingValidate (g : GoalSettingInputs) : Bool :=
  (goalSettingIssues g).isEmpty

example : goalSettingValidate ⟨none, none, some 30, some 40, some 30⟩ = true := by
  norm_num [goalSettingValidate, goalSettingIssues, goalFieldIssues, macroRefineOk,
    totalRatio, optRange]

example : goalSettingValidate ⟨none, none, some 30, some 40, some 40⟩ = false := by
  norm_num [goalSettingValidate, goalSettingIssues, goalFieldIssues, macroRefineOk,
    totalRatio, optRange]

example : goalSettingValidate ⟨none, none, none, none, none⟩ = true := by
  norm_num [goalSettingValidate, goalSettingIssues, goalFieldIssues, macroRefineOk,
    totalRatio, optRange]

/-! ## `UserProfile` work-hours derivation (src/components/profile/UserProfile.tsx, claim C2)

The profile form keeps one optional hours entry per weekday plus a derived
`average_hours` slot.  `calculateAverageHours` collects the set entries
(skipping `undefined` / `null` / `NaN`), returns `0` when none are set, and
otherwise `Math.round` of their mean.  `onSubmit` upserts a row whose
`work_hours` column is this derived value. -/

/-- The `workHours` object of the profile form: per-day optional hour
entries plus the derived `average_hours` slot. -/
structure WorkHoursForm where
  monday : Option ℚ
  tuesday : Option ℚ
  wednesday : Option ℚ
  thursday : Option ℚ
  friday : Option ℚ
  saturday : Option ℚ
  sunday : Option ℚ
  average_hours : Option ℚ
deriving DecidableEq

/-- The `validHours` list of `calculateAverageHours`: the per-day entries in
the fixed `days` order, keeping only the set ones. -/
def workHourEntries (w : WorkHoursForm) : List ℚ :=
  [w.monday, w.tuesday, w.wednesday, w.thursday, w.friday, w.saturday, w.sunday].filterMap id

/-- `calculateAverageHours`: `0` when no day is set, else the rounded mean of
the set days. -/
def calculateAverageHours (w : WorkHoursForm) : ℤ :=
  let validHours := workHourEntries w
  if validHours.length = 0 then 0
  else jsRound (validHours.sum / validHours.length)

/-- The form inputs of the profile form (`UserProfileInputs` in UserProfile.tsx). -/
structure UserProfileInputs where
  fullName : String
  age : Option ℚ
  gender : Option Gender
  profession : String
  workHours : WorkHoursForm
  heightCm : Option ℚ
  weightKg : Option ℚ
  activityLevel : Option ActivityLevel
  dietaryRestrictions : List String
  allergies : List String
  customAllergies : String
  medicalConditions : List String
  fitnessLevel : Option FitnessLevel
  goal : Option GoalType
  sleepHours : Option ℚ
deriving DecidableEq

/-- The `user_profiles` row built by `UserProfile.onSubmit`. -/
structure UserProfileRow where
  user_id : String
  full_name : String
  age : Option ℚ
  gender : Option Gender
  profession : String
  work_hours : ℤ
  height_cm : Option ℚ
  weight_kg : Option ℚ
  activity_level : Option ActivityLevel
  dietary_restrictions : List String
  allergies : List String
  custom_allergies : String
  medical_conditions : List String
  fitness_level : Option FitnessLevel
  goal : Option GoalType
  sleep_hours : Option ℚ
  updated_at : String
deriving DecidableEq

/-- The row assembled in `UserProfile.onSubmit` before the upsert:
`work_hours` is `calculateAverageHours(data.workHours)`, every other column
is the corresponding raw form input. -/
def buildUserProfileRow (uid now : String) (d : UserProfileInputs) : UserProfileRow where
  user_id := uid
  full_name := d.fullName
  age := d.age
  gender := d.gender
  profession := d.profession
  work_hours := calculateAverageHours d.workHours
  height_cm := d.heightCm
  weight_kg := d.weightKg
  activity_level := d.activityLevel
  dietary_restrictions := d.dietaryRestrictions
  allergies := d.allergies
  custom_allergies := d.customAllergies
  medical_conditions := d.medicalConditions
  fitness_level := d.fitnessLevel
  goal := d.goal
  sleep_hours := d.sleepHours
  updated_at := now

example :
    calculateAverageHours ⟨some 8, none, some 6, none, none, none, none, some 0⟩ = 7 := by
  norm_num [calculateAverageHours, workHourEntries, jsRound, List.filterMap]

example :
    calculateAverageHours ⟨none, none, none, none, none, none, none, some 0⟩ = 0 := by
  norm_num [calculateAverageHours, workHourEntries, jsRound, List.filterMap]

/-! ## Onboarding flow (src/components/auth/OnboardingFlow.tsx, inline schema; claims C3, C5, C6)

The multi-step onboarding form validates with an inline Zod schema.
`validateCurrentStep` triggers validation for a fixed list of field names per
step and `handleNextStep` advances only when that validation passes. -/

/-- A character accepted by the full-name regex `[a-zA-Z\s-']`. -/
def nameChar (c : Char) : Bool :=
  c.isAlpha || c.isWhitespace || c = '-' || c = Char.ofNat 39

/-- The `workHours` object of the onboarding schema:
optional start/stop time strings and a list of selected work days. -/
structure WorkHoursOnb where
  start : Option String
  stop : Option String
  days : List String
deriving DecidableEq

/-- The `preferredMealTimes` object: three optional time strings. -/
structure PreferredMealTimes where
  breakfast : Option String
  lunch : Option String
  dinner : Option String
deriving DecidableEq

/-- The onboarding form state (`OnboardingFormInputs`).  Required scalar
fields are `Option`s because the live form can hold unset values before
validation runs. -/
structure OnboardingForm where
  fullName : Option String
  age : Option ℚ
  gender : Option Gender
  profession : Option String
  workHours : WorkHoursOnb
  heightCm : Option ℚ
  weightKg : Option ℚ
  activityLevel : Option ActivityLevel
  dietaryRestrictions : List String
  allergies : List String
  customAllergies : Option String
  medicalConditions : List String
  preferredMealTimes : PreferredMealTimes
  fitnessLevel : Option FitnessLevel
  preferredWorkoutDays : List String
  goal : Option GoalType
  targetWeight : Option ℚ
  targetDate : Option String
  weeklyWorkoutGoal : Option ℚ
  waterIntakeGoal : Option ℚ
  sleepGoal : Option ℚ
  mealPrepPreference : Option MealPrepPreference
deriving DecidableEq

/-- The top-level field names of the onboarding schema. -/
inductive OnbField
  | fullName | age | gender | profession | workHours
  | heightCm | weightKg | activityLevel
  | dietaryRestrictions | allergies | customAllergies | medicalConditions
  | preferredMealTimes | fitnessLevel | preferredWorkoutDays
  | goal | targetWeight | targetDate
  | weeklyWorkoutGoal | waterIntakeGoal | sleepGoal | mealPrepPreference
deriving DecidableEq

/-- A required Zod number field with `.min lo` and `.max hi`:
absent fails, present must lie in `[lo, hi]`. -/
def reqRange (lo hi : ℚ) : Option ℚ → Bool
  | none => false
  | some x => decide (lo ≤ x) && decide (x ≤ hi)

/-- The per-field base constraint of the onboarding schema. -/
def fieldOk (f : OnboardingForm) : OnbField → Bool
  | .fullName =>
      match f.fullName with
      | none => false
      | some s => decide (2 ≤ s.length) && decide (s.length ≤ 50) && s.toList.all nameChar
  | .age => reqRange 10 120 f.age
  | .gender => f.gender.isSome
  | .profession =>
      match f.profession with
      | none => false
      | some s => decide (2 ≤ s.length) && decide (s.length ≤ 100)
  | .workHours => decide (1 ≤ f.workHours.days.length)
  | .heightCm => reqRange 50 250 f.heightCm
  | .weightKg => reqRange 20 300 f.weightKg
  | .activityLevel => f.activityLevel.isSome
  | .dietaryRestrictions =>
      decide (1 ≤ f.dietaryRestrictions.length) && decide (f.dietaryRestrictions.length ≤ 10)
  | .allergies => decide (f.allergies.length ≤ 10)
  | .customAllergies =>
      match f.customAllergies with
      | none => true
      | some s => decide (s.length ≤ 200)
  | .medicalConditions =>
      decide (1 ≤ f.medicalConditions.length) && decide (f.medicalConditions.length ≤ 10)
  | .preferredMealTimes => true
  | .fitnessLevel => f.fitnessLevel.isSome
  | .preferredWorkoutDays =>
      decide (1 ≤ f.preferredWorkoutDays.length) && decide (f.preferredWorkoutDays.length ≤ 7)
  | .goal => f.goal.isSome
  | .targetWeight => optRange 20 300 f.targetWeight
  | .targetDate => true
  | .weeklyWorkoutGoal => optRange 0 7 f.weeklyWorkoutGoal
  | .waterIntakeGoal => optRange 0 10 f.waterIntakeGoal
  | .sleepGoal => optRange 4 12 f.sleepGoal
  | .mealPrepPreference => true

/-- All schema fields, in declaration order. -/
def allOnbFields : List OnbField :=
  [.fullName, .age, .gender, .profession, .workHours,
   .heightCm, .weightKg, .activityLevel,
   .dietaryRestrictions, .allergies, .customAllergies, .medicalConditions,
   .preferredMealTimes, .fitnessLevel, .preferredWorkoutDays,
   .goal, .targetWeight, .targetDate,
   .weeklyWorkoutGoal, .waterIntakeGoal, .sleepGoal, .mealPrepPreference]

/-- JavaScript truthiness of an optional number (`undefined` and `0` are falsy). -/
def truthyNum : Option ℚ → Bool
  | none => false
  | some x => decide (x ≠ 0)

/-- The schema-level `.refine`: with a `lose_weight` goal and a truthy
`targetWeight`, the target must be below the current weight.  (The
refinement only runs when the base checks pass, so `weightKg` is set.) -/
def onbRefineOk (f : OnboardingForm) : Bool :=
  if f.goal = some GoalType.lose_weight && truthyNum f.targetWeight then
    decide (f.targetWeight.getD 0 < f.weightKg.getD 0)
  else true

/-- The fields failing their base constraint, in schema order. -/
def onbBaseIssues (f : OnboardingForm) : List OnbField :=
  allOnbFields.filter (fun fld => !(fieldOk f fld))

/-- The issue paths produced by parsing the whole schema: base issues if
any, otherwise the single refinement issue at path `targetWeight`. -/
def onbIssues (f : OnboardingForm) : List OnbField :=
  if onbBaseIssues f = [] then
    (if onbRefineOk f then [] else [.targetWeight])
  else onbBaseIssues f

/-- Whether `react-hook-form`'s `trigger` reports an error on `fld`. -/
def fieldHasIssue (f : OnboardingForm) (fld : OnbField) : Bool :=
  decide (fld ∈ onbIssues f)

/-- The `currentStepFields` table of `validateCurrentStep`. -/
def stepFields : ℕ → List OnbField
  | 1 => [.fullName, .age, .gender, .heightCm, .weightKg, .activityLevel]
  | 2 => [.dietaryRestrictions, .allergies, .medicalConditions, .preferredMealTimes,
          .fitnessLevel, .preferredWorkoutDays]
  | 3 => [.goal, .targetWeight, .targetDate, .weeklyWorkoutGoal, .waterIntakeGoal,
          .sleepGoal, .mealPrepPreference]
  | _ => []

/-- `validateCurrentStep`: triggers validation of the step's field list and
succeeds iff none of those fields has an issue. -/
def validateCurrentStep (step : ℕ) (f : OnboardingForm) : Bool :=
  (stepFields step).all (fun fld => !(fieldHasIssue f fld))

/-- `handleNextStep`: advance to the next step iff `validateCurrentStep` passes. -/
def handleNextStep (step : ℕ) (f : OnboardingForm) : ℕ :=
  if validateCurrentStep step f then step + 1 else step

/-- The fields rendered (shown as inputs) on each step, from the JSX. -/
def renderedFields : ℕ → List OnbField
  | 1 => [.fullName, .age, .gender, .profession, .workHours,
          .heightCm, .weightKg, .activityLevel]
  | 2 => [.dietaryRestrictions, .allergies, .customAllergies, .medicalConditions,
          .preferredMealTimes, .fitnessLevel, .preferredWorkoutDays]
  | 3 => [.goal, .targetWeight, .targetDate, .weeklyWorkoutGoal, .waterIntakeGoal,
          .sleepGoal, .mealPrepPreference]
  | _ => []

/-- Whether a schema field is required (not `.optional()` and not satisfied
by every value): its constraint can fail on an empty / unset input. -/
def requiredField : OnbField → Bool
  | .customAllergies | .preferredMealTimes | .targetWeight | .targetDate
  | .weeklyWorkoutGoal | .waterIntakeGoal | .sleepGoal | .mealPrepPreference => false
  | _ => true

/-! ### Onboarding profile row and upsert (claims C4, C6)

`OnboardingFlow.onSubmit` derives `work_hours` from start/stop times and the
selected days, builds a denormalized `user_profiles` row, and upserts it
with `onConflict: user_id`. -/

/-- Parse an `HH:MM` time string to minutes since midnight, as
`new Date('2000-01-01T' + s)` does; anything else is an invalid date
(modelled as `none`, the JS `NaN`). -/
def parseTimeMinutes (s : String) : Option ℚ :=
  match s.toList with
  | [h1, h2, c, m1, m2] =>
    if c = ':' && h1.isDigit && h2.isDigit && m1.isDigit && m2.isDigit then
      let h := (h1.toNat - 48) * 10 + (h2.toNat - 48)
      let m := (m1.toNat - 48) * 10 + (m2.toNat - 48)
      if h < 24 && m < 60 then some (((h * 60 + m : ℕ) : ℚ)) else none
    else none
  | _ => none

/-- `calculateAverageWorkHours` of OnboardingFlow: `0` with no selected
days, otherwise `Math.round(hoursPerDay * days.length / 7)` where
`hoursPerDay` comes from the start/stop times (`none` models the `NaN`
produced by unparsable times). -/
def calculateAverageWorkHours (w : WorkHoursOnb) : Option ℤ :=
  if w.days.length = 0 then some 0
  else
    match w.start.bind parseTimeMinutes, w.stop.bind parseTimeMinutes with
    | some s, some e => some (jsRound ((e - s) / 60 * w.days.length / 7))
    | _, _ => none

/-- JavaScript `x || d` for an optional number: `undefined`, `null` and `0`
fall back to the default. -/
def jsOrNum (d : ℚ) : Option ℚ → ℚ
  | none => d
  | some x => if x = 0 then d else x

/-- JavaScript `x || null` for an optional number. -/
def jsOrNull : Option ℚ → Option ℚ
  | none => none
  | some x => if x = 0 then none else some x

/-- JavaScript `s || null` for an optional string (empty string is falsy). -/
def jsOrNullStr : Option String → Option String
  | none => none
  | some s => if s = "" then none else some s

/-- The denormalized `user_profiles` row built by `OnboardingFlow.onSubmit`. -/
structure OnbProfileRow where
  user_id : String
  full_name : Option String
  age : Option ℚ
  gender : Option Gender
  profession : Option String
  work_hours : Option ℤ
  height_cm : Option ℚ
  weight_kg : Option ℚ
  activity_level : Option ActivityLevel
  dietary_restrictions : List String
  allergies : List String
  custom_allergies : Option String
  medical_conditions : List String
  preferred_meal_times : PreferredMealTimes
  fitness_level : FitnessLevel
  preferred_workout_days : List String
  goal_type : Option GoalType
  target_weight : Option ℚ
  target_date : Option String
  weekly_workout_goal : ℚ
  water_intake_goal : ℚ
  sleep_goal : ℚ
  meal_prep_preference : MealPrepPreference
  created_at : String
  updated_at : String
deriving DecidableEq

/-- The `profileData` object of `OnboardingFlow.onSubmit`, with the `||`
fallbacks of the source. -/
def buildOnbProfileRow (uid now : String) (d : OnboardingForm) : OnbProfileRow where
  user_id := uid
  full_name := d.fullName
  age := d.age
  gender := d.gender
  profession := d.profession
  work_hours := calculateAverageWorkHours d.workHours
  height_cm := d.heightCm
  weight_kg := d.weightKg
  activity_level := d.activityLevel
  dietary_restrictions := d.dietaryRestrictions
  allergies := d.allergies
  custom_allergies := jsOrNullStr d.customAllergies
  medical_conditions := d.medicalConditions
  preferred_meal_times := d.preferredMealTimes
  fitness_level := d.fitnessLevel.getD FitnessLevel.beginner
  preferred_workout_days := d.preferredWorkoutDays
  goal_type := d.goal
  target_weight := jsOrNull d.targetWeight
  target_date := jsOrNullStr d.targetDate
  weekly_workout_goal := jsOrNum 3 d.weeklyWorkoutGoal
  water_intake_goal := jsOrNum 2 d.waterIntakeGoal
  sleep_goal := jsOrNum 8 d.sleepGoal
  meal_prep_preference := d.mealPrepPreference.getD MealPrepPreference.daily
  created_at := now
  updated_at := now

/-- A Supabase `upsert` with an `onConflict` key: replace every row with the
same key, or append when none exists. -/
def upsertRow {α : Type} (key : α → String) (db : List α) (row : α) : List α :=
  if db.any (fun r => decide (key r = key row)) then
    db.map (fun r => if key r = key row then row else r)
  else db ++ [row]

/-- `upsert` into `user_profiles` with `onConflict: 'user_id'`. -/
def upsertUserProfiles (db : List OnbProfileRow) (row : OnbProfileRow) : List OnbProfileRow :=
  upsertRow (fun r => r.user_id) db row

/-! ### Local draft persistence (claim C5)

`localStorage` holds the serialized form under the fixed key
`onboardingFormData` and the step index under `onboardingStep`.  A stored
draft is modelled by the JSON document it serializes to: an unset field
(`undefined`, or `NaN` which stringifies to `null`) is `none` and is
*skipped* by the restore loop, which `setValue`s only entries that are
neither `undefined` nor `null` on top of the form's `defaultValues`. -/

/-- A value held in local storage under one of the two fixed keys. -/
inductive StoredValue
  | draft (d : OnboardingForm)
  | stepIndex (n : ℕ)
deriving DecidableEq

/-- Local storage: an association of string keys to stored values. -/
abbrev Store := List (String × StoredValue)

/-- `localStorage.setItem`. -/
def setItem (st : Store) (k : String) (v : StoredValue) : Store :=
  st.filter (fun p => !(p.1 == k)) ++ [(k, v)]

/-- `localStorage.getItem`. -/
def getItem (st : Store) (k : String) : Option StoredValue :=
  (st.find? (fun p => p.1 == k)).map (fun p => p.2)

/-- `localStorage.removeItem`. -/
def removeItem (st : Store) (k : String) : Store :=
  st.filter (fun p => !(p.1 == k))

/-- The `defaultValues` passed to `useForm` in OnboardingFlow. -/
def defaultOnboardingForm : OnboardingForm where
  fullName := none
  age := none
  gender := none
  profession := none
  workHours := ⟨some "", some "", []⟩
  heightCm := none
  weightKg := none
  activityLevel := none
  dietaryRestrictions := []
  allergies := []
  customAllergies := none
  medicalConditions := []
  preferredMealTimes := ⟨none, none, none⟩
  fitnessLevel := none
  preferredWorkoutDays := []
  goal := none
  targetWeight := none
  targetDate := none
  weeklyWorkoutGoal := some 3
  waterIntakeGoal := some 2
  sleepGoal := some 8
  mealPrepPreference := some MealPrepPreference.daily

/-- The restore-on-mount effect: starting from the form's `defaultValues`,
`setValue` each stored entry that is neither `undefined` nor `null`
(i.e. each `some`); skipped entries keep their default. -/
def restoreDraft (d : OnboardingForm) : OnboardingForm where
  fullName := d.fullName.orElse (fun _ => defaultOnboardingForm.fullName)
  age := d.age.orElse (fun _ => defaultOnboardingForm.age)
  gender := d.gender.orElse (fun _ => defaultOnboardingForm.gender)
  profession := d.profession.orElse (fun _ => defaultOnboardingForm.profession)
  workHours := d.workHours
  heightCm := d.heightCm.orElse (fun _ => defaultOnboardingForm.heightCm)
  weightKg := d.weightKg.orElse (fun _ => defaultOnboardingForm.weightKg)
  activityLevel := d.activityLevel.orElse (fun _ => defaultOnboardingForm.activityLevel)
  dietaryRestrictions := d.dietaryRestrictions
  allergies := d.allergies
  customAllergies := d.customAllergies.orElse (fun _ => defaultOnboardingForm.customAllergies)
  medicalConditions := d.medicalConditions
  preferredMealTimes := d.preferredMealTimes
  fitnessLevel := d.fitnessLevel.orElse (fun _ => defaultOnboardingForm.fitnessLevel)
  preferredWorkoutDays := d.preferredWorkoutDays
  goal := d.goal.orElse (fun _ => defaultOnboardingForm.goal)
  targetWeight := d.targetWeight.orElse (fun _ => defaultOnboardingForm.targetWeight)
  targetDate := d.targetDate.orElse (fun _ => defaultOnboardingForm.targetDate)
  weeklyWorkoutGoal := d.weeklyWorkoutGoal.orElse (fun _ => defaultOnboardingForm.weeklyWorkoutGoal)
  waterIntakeGoal := d.waterIntakeGoal.orElse (fun _ => defaultOnboardingForm.waterIntakeGoal)
  sleepGoal := d.sleepGoal.orElse (fun _ => defaultOnboardingForm.sleepGoal)
  mealPrepPreference := d.mealPrepPreference.orElse (fun _ => defaultOnboardingForm.mealPrepPreference)

/-- The `watch` effect: every form change writes the serialized form under
the fixed key `onboardingFormData`. -/
def watchSaveEffect (st : Store) (f : OnboardingForm) : Store :=
  setItem st "onboardingFormData" (StoredValue.draft f)

/-- The step effect: every step change writes the step index under
`onboardingStep`. -/
def stepSaveEffect (st : Store) (n : ℕ) : Store :=
  setItem st "onboardingStep" (StoredValue.stepIndex n)

/-- The mount effect: load the stored draft (if any) back into the form. -/
def restoreOnMount (st : Store) : OnboardingForm :=
  match getItem st "onboardingFormData" with
  | some (StoredValue.draft d) => restoreDraft d
  | _ => defaultOnboardingForm

/-! ### Final submission handler (claims C5, C6)

`OnboardingFlow.onSubmit`: abort with an error toast when signed out;
otherwise upsert the profile row, call the external onboarding trigger, and
only then remove both draft keys, toast success, reset and navigate.  Any
thrown error is caught once and surfaced as a single error toast; nothing
is retried and the draft keys are left untouched. -/

/-- Toast status. -/
inductive ToastStatus | success | error | warning | info
deriving DecidableEq

/-- A toast raised by the handler. -/
structure Toast where
  title : String
  status : ToastStatus
deriving DecidableEq

/-- Outcomes of the two awaited calls of `onSubmit` (an `Option String`
holds the error when the call fails). -/
structure SubmitEnv where
  profileUpsertError : Option String
  triggerOnboardingError : Option String
deriving DecidableEq

/-- Everything `onSubmit` leaves behind. -/
structure SubmitResult where
  store : Store
  db : List OnbProfileRow
  toasts : List Toast
  navigated : Bool
  formReset : Bool
deriving DecidableEq

/-- `OnboardingFlow.onSubmit`, sequentially: guard on the signed-in user,
upsert `user_profiles` (`onConflict: user_id`), trigger the external
onboarding workflow, then clear both draft keys, toast success, reset and
navigate.  A failure of either awaited call jumps to the single `catch`,
which toasts one error and changes nothing else. -/
def onboardingOnSubmit (user : Option String) (now : String) (env : SubmitEnv)
    (data : OnboardingForm) (st : Store) (db : List OnbProfileRow) : SubmitResult :=
  match user with
  | none => ⟨st, db, [⟨"Error", ToastStatus.error⟩], false, false⟩
  | some uid =>
    match env.profileUpsertError with
    | some _ => ⟨st, db, [⟨"Error", ToastStatus.error⟩], false, false⟩
    | none =>
      let db1 := upsertUserProfiles db (buildOnbProfileRow uid now data)
      match env.triggerOnboardingError with
      | some _ => ⟨st, db1, [⟨"Error", ToastStatus.error⟩], false, false⟩
      | none =>
        let st1 := removeItem (removeItem st "onboardingFormData") "onboardingStep"
        ⟨st1, db1, [⟨"Success", ToastStatus.success⟩], true, true⟩

/-! ## Chat proxy endpoints (src/pages/api/n8n/chat-process.ts and chat.ts, claim C7)

Both handlers answer CORS preflight `OPTIONS` with `200`, reject any other
non-`POST` method with `405`, and reject a `POST` whose body lacks a truthy
`user_id` or `message` with `400` — `chat-process` attaches a `details`
object naming the missing fields, `chat` does not.  Downstream failures
yield `500`. -/

/-- The HTTP methods reaching the Next.js API routes. -/
inductive HttpMethod | get | post | put | del | options | patch
deriving DecidableEq

/-- JavaScript truthiness of an optional string (`undefined`, `null` and
the empty string are falsy). -/
def truthyStr : Option String → Bool
  | none => false
  | some s => !(s == "")

/-- The request body fields both chat handlers destructure. -/
structure ChatRequestBody where
  user_id : Option String
  message : Option String
  created_at : Option String
deriving DecidableEq

/-- The `details` payload of an error response: either the object naming
which required fields are missing, or a plain error-message string. -/
inductive ResponseDetails
  | missing (user_id message : Bool)
  | text (s : String)
deriving DecidableEq

/-- The observable response of a proxy handler. -/
structure ApiResponse where
  status : ℕ
  details : Option ResponseDetails
deriving DecidableEq

/-- Downstream outcomes for `chat-process.ts`: the forwarded n8n call
(`ok` or not); the profile fetch and the bot-response save are ignored on
failure and so do not appear. -/
structure ChatProcessEnv where
  n8nOk : Bool
deriving DecidableEq

/-- The `chat-process.ts` handler. -/
def chatProcessHandler (method : HttpMethod) (body : ChatRequestBody)
    (env : ChatProcessEnv) : ApiResponse :=
  if method = HttpMethod.options then ⟨200, none⟩
  else if method ≠ HttpMethod.post then ⟨405, none⟩
  else if !truthyStr body.user_id || !truthyStr body.message then
    ⟨400, some (ResponseDetails.missing (!truthyStr body.user_id) (!truthyStr body.message))⟩
  else if env.n8nOk then ⟨200, none⟩
  else ⟨500, none⟩

/-- The `chat.ts` handler; its only downstream call is the
`chat_interactions` insert. -/
def chatHandler (method : HttpMethod) (body : ChatRequestBody)
    (insertError : Option String) : ApiResponse :=
  if method = HttpMethod.options then ⟨200, none⟩
  else if method ≠ HttpMethod.post then ⟨405, none⟩
  else if !truthyStr body.user_id || !truthyStr body.message then
    ⟨400, none⟩
  else
    match insertError with
    | some e => ⟨500, some (ResponseDetails.text e)⟩
    | none => ⟨200, none⟩

/-! ## Meal logging (src/utils/validation.ts, src/hooks/useMealLogging.ts; claim C8) -/

/-- `z.enum(['breakfast','lunch','dinner','snack','other'])`. -/
inductive MealType | breakfast | lunch | dinner | snack | other
deriving DecidableEq

/-- A food item of the meal-log form (`foodItemSchema`). -/
structure FoodItemInput where
  name : String
  calories : ℚ
  protein : ℚ
  carbs : ℚ
  fat : ℚ
  quantity : ℚ
  unit : String
  barcode : Option String
deriving DecidableEq

/-- `foodItemSchema`: non-empty name and unit, non-negative macros, and
`quantity.min(0.1)`. -/
def foodItemOk (i : FoodItemInput) : Bool :=
  decide (1 ≤ i.name.length) &&
  decide (0 ≤ i.calories) && decide (0 ≤ i.protein) &&
  decide (0 ≤ i.carbs) && decide (0 ≤ i.fat) &&
  decide ((1 : ℚ) / 10 ≤ i.quantity) &&
  decide (1 ≤ i.unit.length)

/-- The meal-log form data (`mealLogSchema`). -/
structure MealLogInput where
  mealType : MealType
  mealDate : String
  mealTime : String
  foodItems : List FoodItemInput
  notes : Option String
deriving DecidableEq

/-- `mealLogSchema`: non-empty date and time, at least one food item, and
every item valid. -/
def mealLogOk (m : MealLogInput) : Bool :=
  decide (1 ≤ m.mealDate.length) && decide (1 ≤ m.mealTime.length) &&
  decide (1 ≤ m.foodItems.length) && m.foodItems.all foodItemOk

/-- What `useMealLogging.submitMealLog` did: whether the logging service
(`logMeal`), and hence any network or database call, was reached, and
whether the submission succeeded. -/
structure SubmitMealOutcome where
  serviceCalled : Bool
  success : Bool
deriving DecidableEq

/-- `submitMealLog`: `mealLogSchema.parse(mealData)` throws on invalid data
before `logMeal` is called; only a successful parse reaches the service. -/
def submitMealLog (serviceOk : Bool) (m : MealLogInput) : SubmitMealOutcome :=
  if mealLogOk m then ⟨true, serviceOk⟩ else ⟨false, false⟩

/-! ## `logMeal` persistence (src/services/n8nWebhooks.ts, claims C9, C10)

`logMeal` inserts the parent `meal_logs` row, then inserts one
`meal_food_items` row per food item carrying the id returned for the
parent, then posts to the `/api/n8n/meal-log` proxy.  Every failure throws
immediately; nothing already inserted is compensated. -/

/-- The `MealLogData` payload the service receives. -/
structure MealServiceData where
  userId : String
  mealType : String
  mealDate : String
  mealTime : String
  foodItems : List FoodItemInput
  notes : Option String
  timestamp : String
deriving DecidableEq

/-- A `meal_logs` row. -/
structure MealLogRow where
  id : ℕ
  user_id : String
  meal_type : String
  meal_date : String
  meal_time : String
  notes : Option String
  created_at : String
deriving DecidableEq

/-- A `meal_food_items` row. -/
structure MealFoodItemRow where
  meal_log_id : ℕ
  name : String
  calories : ℚ
  protein : ℚ
  carbs : ℚ
  fat : ℚ
  quantity : ℚ
  unit : String
  barcode : Option String
deriving DecidableEq

/-- The meal tables of the database, with the id the next insert returns. -/
structure MealDb where
  nextId : ℕ
  meal_logs : List MealLogRow
  meal_food_items : List MealFoodItemRow
deriving DecidableEq

/-- Outcomes of the three sequential calls of `logMeal`. -/
structure MealEnv where
  mealLogInsertError : Option String
  foodItemsInsertError : Option String
  webhookOk : Bool
deriving DecidableEq

/-- The child row built for one food item, carrying the parent id. -/
def toFoodItemRow (mealLogId : ℕ) (i : FoodItemInput) : MealFoodItemRow where
  meal_log_id := mealLogId
  name := i.name
  calories := i.calories
  protein := i.protein
  carbs := i.carbs
  fat := i.fat
  quantity := i.quantity
  unit := i.unit
  barcode := i.barcode

/-- The parent `meal_logs` row `logMeal` inserts. -/
def parentMealRow (db : MealDb) (m : MealServiceData) : MealLogRow where
  id := db.nextId
  user_id := m.userId
  meal_type := m.mealType
  meal_date := m.mealDate
  meal_time := m.mealTime
  notes := m.notes
  created_at := m.timestamp

/-- What `logMeal` threw (if anything) together with the database it left
behind: the parent insert, then the child insert keyed by the returned
parent id, then the webhook call; each failure throws on the spot with no
compensation of earlier writes. -/
structure LogMealResult where
  thrown : Option String
  db : MealDb
deriving DecidableEq

/-- `logMeal` of src/services/n8nWebhooks.ts. -/
def logMeal (env : MealEnv) (db : MealDb) (m : MealServiceData) : LogMealResult :=
  match env.mealLogInsertError with
  | some e => ⟨some e, db⟩
  | none =>
    let parent := parentMealRow db m
    let db1 : MealDb := ⟨db.nextId + 1, db.meal_logs ++ [parent], db.meal_food_items⟩
    match env.foodItemsInsertError with
    | some e => ⟨some e, db1⟩
    | none =>
      let db2 : MealDb :=
        { db1 with meal_food_items := db1.meal_food_items ++ m.foodItems.map (toFoodItemRow parent.id) }
      if env.webhookOk then ⟨none, db2⟩
      else ⟨some "Failed to log meal via n8n.", db2⟩

/-! ## Claim C1 — macro-ratio validation of the goal-setting form -/

/-- Auxiliary: an optional `[0, hi]`-range field that passes contributes a
non-negative value to the ratio sum. -/
theorem optRange_getD_nonneg {hi : ℚ} {o : Option ℚ} (h : optRange 0 hi o = true) :
    0 ≤ o.getD 0 := by
  cases o with
  | none => simp
  | some x =>
    simp only [optRange, Bool.and_eq_true, decide_eq_true_eq] at h
    simpa using h.1

/-- C1, counterexample.  The claim says a submission in which a subset of
the three ratios is unset passes, and that one with all three provided and
a sum ≠ 100 is rejected.  The code treats unset ratios as `0`: providing
only `targetProteinRatio = 30` is rejected (sum `30` is positive and not
`100`), while providing all three as `0` passes (sum `0` is not positive). -/
theorem C1_counterexample :
    goalSettingValidate ⟨none, none, some 30, none, none⟩ = false ∧
    goalSettingValidate ⟨none, none, some 0, some 0, some 0⟩ = true := by
  refine ⟨?_, ?_⟩ <;>
    norm_num [goalSettingValidate, goalSettingIssues, goalFieldIssues, macroRefineOk,
      totalRatio, optRange]

/-- C1 (amended).  For a goal-setting submission whose per-field range
checks pass, schema validation succeeds iff the macro-ratio sum — with
unset ratios counted as `0` — is exactly `0` or exactly `100`; otherwise
the submission is rejected with a single error, attached to the
`targetProteinRatio` field. -/
theorem C1_macro_ratio_validation (g : GoalSettingInputs)
    (h : goalFieldIssues g = []) :
    (goalSettingValidate g = true ↔ (totalRatio g = 0 ∨ totalRatio g = 100)) ∧
    (goalSettingValidate g = false → goalSettingIssues g = ["targetProteinRatio"]) := by
  have hsplit := h
  rw [goalFieldIssues] at hsplit
  rw [List.append_eq_nil, List.append_eq_nil, List.append_eq_nil, List.append_eq_nil] at hsplit
  have hp := hsplit.1.1.2
  have hc := hsplit.1.2
  have hf := hsplit.2
  have hpr : optRange 0 100 g.targetProteinRatio = true := by
    by_contra hx
    simp only [Bool.not_eq_true] at hx
    simp [hx] at hp
  have hcr : optRange 0 100 g.targetCarbsRatio = true := by
    by_contra hx
    simp only [Bool.not_eq_true] at hx
    simp [hx] at hc
  have hfr : optRange 0 100 g.targetFatRatio = true := by
    by_contra hx
    simp only [Bool.not_eq_true] at hx
    simp [hx] at hf
  have ht : 0 ≤ totalRatio g :=
    add_nonneg (add_nonneg (optRange_getD_nonneg hpr) (optRange_getD_nonneg hcr))
      (optRange_getD_nonneg hfr)
  have hiss : goalSettingIssues g =
      if macroRefineOk g then [] else ["targetProteinRatio"] := by
    simp [goalSettingIssues, h]
  have hmr : macroRefineOk g = true ↔ ¬(0 < totalRatio g ∧ totalRatio g ≠ 100) := by
    rw [macroRefineOk]
    rcases Classical.em (0 < totalRatio g ∧ totalRatio g ≠ 100) with hx | hx
    · simp [hx.1, hx.2]
    · constructor
      · intro _
        exact hx
      · intro _
        by_cases h1 : 0 < totalRatio g
        · by_cases h2 : totalRatio g = 100
          · simp [h1, h2]
          · exact absurd ⟨h1, h2⟩ hx
        · simp [h1]
  have key : ¬(0 < totalRatio g ∧ totalRatio g ≠ 100) ↔
      (totalRatio g = 0 ∨ totalRatio g = 100) := by
    constructor
    · intro hx
      by_cases h100 : totalRatio g = 100
      · exact Or.inr h100
      · left
        by_contra h0
        exact hx ⟨lt_of_le_of_ne ht (Ne.symm h0), h100⟩
    · rintro (h0 | h100)
      · rintro ⟨hlt, -⟩
        rw [h0] at hlt
        exact lt_irrefl 0 hlt
      · rintro ⟨-, hne⟩
        exact hne h100
  have hv : goalSettingValidate g = macroRefineOk g := by
    rw [goalSettingValidate, hiss]
    by_cases hm : macroRefineOk g = true <;> simp [hm]
  constructor
  · rw [hv]
    exact hmr.trans key
  · intro hfalse
    rw [hv] at hfalse
    rw [hiss, hfalse]
    simp

/-- C1, witness: the amended theorem at the concrete rejected submission
`(30, 40, 40)` (sum `110`). -/
theorem C1_macro_ratio_validation_witness :
    goalSettingIssues ⟨none, none, some 30, some 40, some 40⟩ = ["targetProteinRatio"] := by
  have h : goalFieldIssues ⟨none, none, some 30, some 40, some 40⟩ = [] := by
    norm_num [goalFieldIssues, optRange]
  exact (C1_macro_ratio_validation ⟨none, none, some 30, some 40, some 40⟩ h).2
    (by norm_num [goalSettingValidate, goalSettingIssues, goalFieldIssues, macroRefineOk,
      totalRatio, optRange])

/-! ## Claim C2 — derived average work hours in the profile form -/

/-- C2.  `calculateAverageHours` ignores unset days and rounds the mean of
the set days: `(monday 8, wednesday 6)` gives `round((8+6)/2) = 7` and all
days unset gives `0`; and the `user_profiles` row written by
`UserProfile.onSubmit` stores exactly this derived value as `work_hours`
alongside the raw form inputs (name, age, profession, height, weight, …). -/
theorem C2_average_work_hours :
    calculateAverageHours ⟨some 8, none, some 6, none, none, none, none, some 0⟩ = 7 ∧
    calculateAverageHours ⟨none, none, none, none, none, none, none, some 0⟩ = 0 ∧
    ∀ (uid now : String) (d : UserProfileInputs),
      (buildUserProfileRow uid now d).work_hours = calculateAverageHours d.workHours ∧
      (buildUserProfileRow uid now d).full_name = d.fullName ∧
      (buildUserProfileRow uid now d).age = d.age ∧
      (buildUserProfileRow uid now d).profession = d.profession ∧
      (buildUserProfileRow uid now d).height_cm = d.heightCm ∧
      (buildUserProfileRow uid now d).weight_kg = d.weightKg ∧
      (buildUserProfileRow uid now d).sleep_hours = d.sleepHours := by
  refine ⟨?_, ?_, ?_⟩
  · norm_num [calculateAverageHours, workHourEntries, jsRound, List.filterMap]
  · norm_num [calculateAverageHours, workHourEntries, jsRound, List.filterMap]
  · intro uid now d
    exact ⟨rfl, rfl, rfl, rfl, rfl, rfl, rfl⟩

/-! ## Claim C3 — per-step validation of the onboarding flow -/

/-- Every schema field occurs in `allOnbFields`. -/
theorem mem_allOnbFields (fld : OnbField) : fld ∈ allOnbFields := by
  cases fld <;> decide

/-- For any field other than `targetWeight` (the refinement's path), the
triggered validation reports an issue exactly when the field's base
constraint fails. -/
theorem fieldHasIssue_eq_fieldOk (f : OnboardingForm) (fld : OnbField)
    (hne : fld ≠ OnbField.targetWeight) :
    fieldHasIssue f fld = !(fieldOk f fld) := by
  rw [fieldHasIssue, onbIssues]
  by_cases hb : onbBaseIssues f = []
  · rw [if_pos hb]
    have hok : fieldOk f fld = true := by
      have hmem := List.filter_eq_nil_iff.mp hb fld (mem_allOnbFields fld)
      simpa using hmem
    rw [hok]
    by_cases hr : onbRefineOk f = true
    · simp [hr]
    · simp only [Bool.not_eq_true] at hr
      simp [hr, hne]
  · rw [if_neg hb, onbBaseIssues]
    by_cases hok : fieldOk f fld = true
    · simp [List.mem_filter, hok]
    · simp only [Bool.not_eq_true] at hok
      simp [List.mem_filter, hok, mem_allOnbFields]

/-- A step-1 form state whose six validated fields are all valid while the
rendered required fields `profession` and `workHours` are invalid
(empty profession, no selected work day). -/
def c3Form : OnboardingForm where
  fullName := some "John Doe"
  age := some 30
  gender := some Gender.male
  profession := some ""
  workHours := ⟨some "", some "", []⟩
  heightCm := some 170
  weightKg := some 70
  activityLevel := some ActivityLevel.sedentary
  dietaryRestrictions := ["vegan"]
  allergies := []
  customAllergies := none
  medicalConditions := ["fit_and_fine"]
  preferredMealTimes := ⟨none, none, none⟩
  fitnessLevel := some FitnessLevel.beginner
  preferredWorkoutDays := ["monday"]
  goal := some GoalType.lose_weight
  targetWeight := some 60
  targetDate := none
  weeklyWorkoutGoal := some 3
  waterIntakeGoal := some 2
  sleepGoal := some 8
  mealPrepPreference := some MealPrepPreference.daily

/-- C3, counterexample.  The claim says advancing from a step is blocked
exactly when some required field rendered in that step fails its
constraint.  On step 1 the code validates only
`fullName, age, gender, heightCm, weightKg, activityLevel`; with an empty
`profession` and no selected work day — both rendered on step 1 and
required by the schema — `validateCurrentStep` still passes and Next
advances to step 2. -/
theorem C3_counterexample :
    handleNextStep 1 c3Form = 2 ∧
    validateCurrentStep 1 c3Form = true ∧
    OnbField.profession ∈ renderedFields 1 ∧
    requiredField OnbField.profession = true ∧
    fieldOk c3Form OnbField.profession = false ∧
    OnbField.workHours ∈ renderedFields 1 ∧
    requiredField OnbField.workHours = true ∧
    fieldOk c3Form OnbField.workHours = false := by
  decide

/-- C3 (amended).  Pressing Next runs validation for exactly the step's
configured field list and advances iff every field in that list satisfies
its base constraint; the step-1 list omits the rendered required fields
`profession` and `workHours`, so their failures never block advancing from
step 1. -/
theorem C3_step_validation (s : ℕ) (f : OnboardingForm) (h : s = 1 ∨ s = 2) :
    (handleNextStep s f = s + 1 ↔ (stepFields s).all (fieldOk f) = true) ∧
    (OnbField.profession ∈ renderedFields 1 ∧ requiredField OnbField.profession = true ∧
      OnbField.profession ∉ stepFields 1) ∧
    (OnbField.workHours ∈ renderedFields 1 ∧ requiredField OnbField.workHours = true ∧
      OnbField.workHours ∉ stepFields 1) := by
  refine ⟨?_, by decide, by decide⟩
  have hv : validateCurrentStep s f = (stepFields s).all (fieldOk f) := by
    rcases h with rfl | rfl <;>
      simp [validateCurrentStep, stepFields, fieldHasIssue_eq_fieldOk]
  rw [handleNextStep, hv]
  by_cases hall : (stepFields s).all (fieldOk f) = true
  · simp [hall]
  · simp [hall]

/-- C3, witness: the amended theorem at step 1 and the concrete form
`c3Form`. -/
theorem C3_step_validation_witness :
    handleNextStep 1 c3Form = 2 ↔ (stepFields 1).all (fieldOk c3Form) = true :=
  (C3_step_validation 1 c3Form (Or.inl rfl)).1

/-! ## Claim C4 — upsert idempotence for the profile row -/

/-- Upserting the same row twice equals upserting it once. -/
theorem upsertRow_idem {α : Type} (key : α → String) (db : List α) (row : α) :
    upsertRow key (upsertRow key db row) row = upsertRow key db row := by
  by_cases hmem : db.any (fun r => decide (key r = key row)) = true
  · have h1 : upsertRow key db row =
        db.map (fun r => if key r = key row then row else r) := by
      rw [upsertRow, if_pos hmem]
    rw [h1, upsertRow]
    have hany : (db.map (fun r => if key r = key row then row else r)).any
        (fun r => decide (key r = key row)) = true := by
      rcases List.any_eq_true.mp hmem with ⟨x, hx, hkx⟩
      have hkx' : key x = key row := of_decide_eq_true hkx
      exact List.any_eq_true.mpr
        ⟨row, List.mem_map.mpr ⟨x, hx, by simp [hkx']⟩, by simp⟩
    rw [if_pos hany, List.map_map]
    apply List.map_congr_left
    intro a _
    by_cases ha : key a = key row
    · simp [Function.comp, ha]
    · simp [Function.comp, ha]
  · have h1 : upsertRow key db row = db ++ [row] := by
      rw [upsertRow, if_neg hmem]
    rw [h1, upsertRow]
    have hany : ((db ++ [row]).any (fun r => decide (key r = key row))) = true :=
      List.any_eq_true.mpr ⟨row, by simp, by simp⟩
    rw [if_pos hany, List.map_append]
    have hnone : ∀ a ∈ db, ¬(key a = key row) := by
      intro a ha hx
      exact hmem (List.any_eq_true.mpr ⟨a, ha, by simp [hx]⟩)
    congr 1
    · conv_rhs => rw [← List.map_id db]
      apply List.map_congr_left
      intro a ha
      simp [hnone a ha]
    · simp

/-- After an upsert into a table holding at most one row per key, the
upserted key has exactly one row. -/
theorem upsertRow_count {α : Type} (key : α → String) (db : List α) (row : α)
    (h : db.countP (fun r => decide (key r = key row)) ≤ 1) :
    (upsertRow key db row).countP (fun r => decide (key r = key row)) = 1 := by
  by_cases hmem : db.any (fun r => decide (key r = key row)) = true
  · rw [upsertRow, if_pos hmem, List.countP_map]
    have hcong : db.countP ((fun r => decide (key r = key row)) ∘
        (fun r => if key r = key row then row else r)) =
        db.countP (fun r => decide (key r = key row)) := by
      apply List.countP_congr
      intro a _
      by_cases ha : key a = key row
      · simp [Function.comp, ha]
      · simp [Function.comp, ha]
    rw [hcong]
    have hpos : 0 < db.countP (fun r => decide (key r = key row)) := by
      rcases List.any_eq_true.mp hmem with ⟨x, hx, hkx⟩
      exact List.countP_pos_iff.mpr ⟨x, hx, hkx⟩
    exact le_antisymm h hpos
  · rw [upsertRow, if_neg hmem, List.countP_append]
    have hz : db.countP (fun r => decide (key r = key row)) = 0 := by
      rw [List.countP_eq_zero]
      intro a ha hx
      exact hmem (List.any_eq_true.mpr ⟨a, ha, hx⟩)
    rw [hz]
    simp [List.countP_cons]

/-- After an upsert, every row with the upserted key is the submitted row. -/
theorem upsertRow_latest {α : Type} (key : α → String) (db : List α) (row : α) :
    ∀ r ∈ upsertRow key db row, key r = key row → r = row := by
  intro r hr hk
  by_cases hmem : db.any (fun x => decide (key x = key row)) = true
  · rw [upsertRow, if_pos hmem] at hr
    rcases List.mem_map.mp hr with ⟨x, hx, hgx⟩
    by_cases hxk : key x = key row
    · rw [if_pos hxk] at hgx
      exact hgx.symm
    · rw [if_neg hxk] at hgx
      subst hgx
      exact absurd hk hxk
  · rw [upsertRow, if_neg hmem] at hr
    rcases List.mem_append.mp hr with hrdb | hrr
    · exact absurd (List.any_eq_true.mpr ⟨r, hrdb, by simp [hk]⟩) hmem
    · simpa using hrr

/-- C4.  In a `user_profiles` table with at most one row per `user_id`
(the unique-constraint invariant), upserting the onboarding profile row
with `onConflict: user_id` gives exactly one row for that user, carrying
the submitted values, and upserting the same payload a second time changes
nothing — so submitting the same profile payload twice leaves one row with
the latest values, not two rows. -/
theorem C4_upsert_idempotent (db : List OnbProfileRow) (row : OnbProfileRow)
    (h : ∀ uid : String, db.countP (fun r => decide (r.user_id = uid)) ≤ 1) :
    upsertUserProfiles (upsertUserProfiles db row) row = upsertUserProfiles db row ∧
    (upsertUserProfiles db row).countP (fun r => decide (r.user_id = row.user_id)) = 1 ∧
    (∀ r ∈ upsertUserProfiles db row, r.user_id = row.user_id → r = row) := by
  refine ⟨upsertRow_idem _ db row, ?_, ?_⟩
  · exact upsertRow_count (fun r => r.user_id) db row (h row.user_id)
  · exact upsertRow_latest (fun r => r.user_id) db row

/-- C4, witness: submitting the onboarding profile row for user `u1` into
an empty table yields exactly one row for `u1`. -/
theorem C4_upsert_idempotent_witness :
    (upsertUserProfiles [] (buildOnbProfileRow "u1" "t0" defaultOnboardingForm)).countP
      (fun r => decide
        (r.user_id = (buildOnbProfileRow "u1" "t0" defaultOnboardingForm).user_id)) = 1 :=
  (C4_upsert_idempotent [] (buildOnbProfileRow "u1" "t0" defaultOnboardingForm)
    (fun _ => by simp)).2.1

/-! ## Claim C5 — draft persistence round-trip -/

/-- Reading back the key just written returns the value just written. -/
theorem getItem_setItem (st : Store) (k : String) (v : StoredValue) :
    getItem (setItem st k v) k = some v := by
  rw [getItem, setItem, List.find?_append]
  have h1 : (st.filter (fun p => !(p.1 == k))).find? (fun p => p.1 == k) = none := by
    rw [List.find?_eq_none]
    intro x hx
    have hmem := List.of_mem_filter hx
    simpa using hmem
  rw [h1]
  simp

/-- After removing both draft keys, neither can be read back. -/
theorem getItem_after_remove2 (st : Store) (k1 k2 q : String) (h : q = k1 ∨ q = k2) :
    getItem (removeItem (removeItem st k1) k2) q = none := by
  have hf : ((removeItem (removeItem st k1) k2).find? (fun p => p.1 == q)) = none := by
    rw [List.find?_eq_none]
    intro x hx
    rw [removeItem, removeItem] at hx
    have h2 := List.mem_filter.mp hx
    have h3 := List.mem_filter.mp h2.1
    rcases h with rfl | rfl
    · simpa using h3.2
    · simpa using h2.2
  rw [getItem, hf]
  rfl

/-- An `Option` with a `none` fallback is unchanged. -/
theorem orElse_none_right {α : Type} (o : Option α) :
    (o.orElse fun _ => none) = o := by
  cases o <;> rfl

/-- C5, counterexample.  The claim says the save/restore round-trip is the
identity on field values for every form state.  A form whose
`weeklyWorkoutGoal` is unset (the user cleared the number input, so the
serialized draft holds no usable value for it) restores to the schema
default `3`, not to the unset value. -/
theorem C5_counterexample :
    (restoreOnMount (watchSaveEffect []
        { defaultOnboardingForm with weeklyWorkoutGoal := none })).weeklyWorkoutGoal
      = some 3 ∧
    restoreOnMount (watchSaveEffect []
        { defaultOnboardingForm with weeklyWorkoutGoal := none })
      ≠ { defaultOnboardingForm with weeklyWorkoutGoal := none } := by
  have hs : restoreOnMount (watchSaveEffect []
      { defaultOnboardingForm with weeklyWorkoutGoal := none }) =
      restoreDraft { defaultOnboardingForm with weeklyWorkoutGoal := none } := by
    rw [restoreOnMount, watchSaveEffect, getItem_setItem]
  rw [hs]
  constructor
  · rfl
  · intro hx
    have := congrArg OnboardingForm.weeklyWorkoutGoal hx
    simp [restoreDraft, defaultOnboardingForm] at this

/-- C5 (amended).  Every form change is mirrored under the fixed key
`onboardingFormData` (and the step under `onboardingStep`); restoring the
stored draft reproduces every field value except that the scalar fields
with non-trivial schema defaults (`weeklyWorkoutGoal`, `waterIntakeGoal`,
`sleepGoal`, `mealPrepPreference`) come back as their defaults when they
were unset; both keys are removed iff the final submission fully
succeeds. -/
theorem C5_draft_round_trip (st : Store) (f : OnboardingForm) (user now : String)
    (env : SubmitEnv) (db : List OnbProfileRow) :
    (getItem (watchSaveEffect st f) "onboardingFormData" = some (StoredValue.draft f)) ∧
    (∀ n : ℕ, getItem (stepSaveEffect st n) "onboardingStep"
        = some (StoredValue.stepIndex n)) ∧
    (restoreOnMount (watchSaveEffect st f) = restoreDraft f) ∧
    ((restoreDraft f).fullName = f.fullName ∧ (restoreDraft f).age = f.age ∧
     (restoreDraft f).gender = f.gender ∧ (restoreDraft f).profession = f.profession ∧
     (restoreDraft f).workHours = f.workHours ∧ (restoreDraft f).heightCm = f.heightCm ∧
     (restoreDraft f).weightKg = f.weightKg ∧
     (restoreDraft f).activityLevel = f.activityLevel ∧
     (restoreDraft f).dietaryRestrictions = f.dietaryRestrictions ∧
     (restoreDraft f).allergies = f.allergies ∧
     (restoreDraft f).customAllergies = f.customAllergies ∧
     (restoreDraft f).medicalConditions = f.medicalConditions ∧
     (restoreDraft f).preferredMealTimes = f.preferredMealTimes ∧
     (restoreDraft f).fitnessLevel = f.fitnessLevel ∧
     (restoreDraft f).preferredWorkoutDays = f.preferredWorkoutDays ∧
     (restoreDraft f).goal = f.goal ∧ (restoreDraft f).targetWeight = f.targetWeight ∧
     (restoreDraft f).targetDate = f.targetDate) ∧
    (f.weeklyWorkoutGoal.isSome →
      (restoreDraft f).weeklyWorkoutGoal = f.weeklyWorkoutGoal) ∧
    (f.waterIntakeGoal.isSome → (restoreDraft f).waterIntakeGoal = f.waterIntakeGoal) ∧
    (f.sleepGoal.isSome → (restoreDraft f).sleepGoal = f.sleepGoal) ∧
    (f.mealPrepPreference.isSome →
      (restoreDraft f).mealPrepPreference = f.mealPrepPreference) ∧
    (env.profileUpsertError = none → env.triggerOnboardingError = none →
      getItem (onboardingOnSubmit (some user) now env f st db).store
          "onboardingFormData" = none ∧
      getItem (onboardingOnSubmit (some user) now env f st db).store
          "onboardingStep" = none) ∧
    (∀ e, env.profileUpsertError = some e →
      (onboardingOnSubmit (some user) now env f st db).store = st) ∧
    (∀ e, env.triggerOnboardingError = some e →
      (onboardingOnSubmit (some user) now env f st db).store = st) := by
  refine ⟨getItem_setItem st _ _, fun n => getItem_setItem st _ _, ?_, ?_, ?_, ?_, ?_, ?_,
    ?_, ?_, ?_⟩
  · rw [restoreOnMount, watchSaveEffect, getItem_setItem]
  · simp [restoreDraft, defaultOnboardingForm, orElse_none_right]
  · intro h
    rcases Option.isSome_iff_exists.mp h with ⟨v, hv⟩
    simp [restoreDraft, hv]
  · intro h
    rcases Option.isSome_iff_exists.mp h with ⟨v, hv⟩
    simp [restoreDraft, hv]
  · intro h
    rcases Option.isSome_iff_exists.mp h with ⟨v, hv⟩
    simp [restoreDraft, hv]
  · intro h
    rcases Option.isSome_iff_exists.mp h with ⟨v, hv⟩
    simp [restoreDraft, hv]
  · intro h1 h2
    simp only [onboardingOnSubmit, h1, h2]
    exact ⟨getItem_after_remove2 st _ _ _ (Or.inl rfl),
      getItem_after_remove2 st _ _ _ (Or.inr rfl)⟩
  · intro e he
    simp [onboardingOnSubmit, he]
  · intro e he
    cases henv : env.profileUpsertError with
    | some e2 => simp [onboardingOnSubmit, henv]
    | none => simp [onboardingOnSubmit, henv, he]

/-- C5, witness: the amended theorem at the concrete form `c3Form`
(whose `weeklyWorkoutGoal` is set). -/
theorem C5_draft_round_trip_witness :
    restoreOnMount (watchSaveEffect [] c3Form) = restoreDraft c3Form ∧
    (restoreDraft c3Form).weeklyWorkoutGoal = c3Form.weeklyWorkoutGoal := by
  refine ⟨(C5_draft_round_trip [] c3Form "u1" "t0" ⟨none, none⟩ []).2.2.1, ?_⟩
  exact (C5_draft_round_trip [] c3Form "u1" "t0" ⟨none, none⟩ []).2.2.2.2.1 rfl

/-! ## Claim C6 — failure handling of the final onboarding submission -/

/-- C6.  If the profile upsert or the external onboarding trigger fails,
`onSubmit` surfaces exactly one user-visible error toast, leaves the local
draft (both `onboardingFormData` and `onboardingStep`) untouched, does not
navigate and does not reset the form — no partial state is presented as
success and nothing is retried. -/
theorem C6_submit_failure (user now : String) (env : SubmitEnv)
    (data : OnboardingForm) (st : Store) (db : List OnbProfileRow)
    (h : env.profileUpsertError.isSome ∨ env.triggerOnboardingError.isSome) :
    (onboardingOnSubmit (some user) now env data st db).toasts
        = [⟨"Error", ToastStatus.error⟩] ∧
    (onboardingOnSubmit (some user) now env data st db).store = st ∧
    (onboardingOnSubmit (some user) now env data st db).navigated = false ∧
    (onboardingOnSubmit (some user) now env data st db).formReset = false := by
  cases hp : env.profileUpsertError with
  | some e => simp [onboardingOnSubmit, hp]
  | none =>
    cases ht : env.triggerOnboardingError with
    | some e => simp [onboardingOnSubmit, hp, ht]
    | none =>
      exfalso
      rcases h with h1 | h1
      · rw [hp] at h1
        simp at h1
      · rw [ht] at h1
        simp at h1

/-- C6, witness: a failing profile upsert produces the single error toast
and keeps the draft. -/
theorem C6_submit_failure_witness :
    (onboardingOnSubmit (some "u1") "t0" ⟨some "db down", none⟩ defaultOnboardingForm
        [("onboardingFormData", StoredValue.draft defaultOnboardingForm)] []).toasts
      = [⟨"Error", ToastStatus.error⟩] ∧
    (onboardingOnSubmit (some "u1") "t0" ⟨some "db down", none⟩ defaultOnboardingForm
        [("onboardingFormData", StoredValue.draft defaultOnboardingForm)] []).store
      = [("onboardingFormData", StoredValue.draft defaultOnboardingForm)] := by
  have h := C6_submit_failure "u1" "t0" ⟨some "db down", none⟩ defaultOnboardingForm
    [("onboardingFormData", StoredValue.draft defaultOnboardingForm)] [] (Or.inl rfl)
  exact ⟨h.1, h.2.1⟩

/-! ## Claim C7 — chat proxy endpoint contract -/

/-- C7, counterexample.  The claim says every chat proxy endpoint answers a
`POST` with missing fields with a `400` carrying a details object naming
the missing fields, and answers any non-`POST` with `405`.  `chat.ts`
returns its `400` without any details object, and both endpoints answer
the non-`POST` method `OPTIONS` with `200` (CORS preflight), not `405`. -/
theorem C7_counterexample :
    chatHandler HttpMethod.post ⟨some "u1", none, none⟩ none = ⟨400, none⟩ ∧
    chatProcessHandler HttpMethod.options ⟨none, none, none⟩ ⟨true⟩ = ⟨200, none⟩ ∧
    chatHandler HttpMethod.options ⟨none, none, none⟩ none = ⟨200, none⟩ := by
  refine ⟨?_, rfl, rfl⟩
  simp [chatHandler, truthyStr]

/-- C7 (amended).  Both chat endpoints answer `OPTIONS` with `200` and any
other non-`POST` method with `405`; a `POST` without a truthy `user_id` or
`message` gets `400`, where only `chat-process.ts` attaches a details
object naming the missing fields (`chat.ts` sends no details); a valid
`POST` to `chat-process.ts` yields `200`, or `500` when the forwarded
workflow call fails. -/
theorem C7_proxy_contract (method : HttpMethod) (body : ChatRequestBody)
    (penv : ChatProcessEnv) (insertError : Option String) :
    (method = HttpMethod.options →
      (chatProcessHandler method body penv).status = 200 ∧
      (chatHandler method body insertError).status = 200) ∧
    (method ≠ HttpMethod.options → method ≠ HttpMethod.post →
      (chatProcessHandler method body penv).status = 405 ∧
      (chatHandler method body insertError).status = 405) ∧
    (method = HttpMethod.post →
      (!truthyStr body.user_id || !truthyStr body.message) = true →
      chatProcessHandler method body penv =
        ⟨400, some (ResponseDetails.missing (!truthyStr body.user_id)
          (!truthyStr body.message))⟩ ∧
      chatHandler method body insertError = ⟨400, none⟩) ∧
    (method = HttpMethod.post → truthyStr body.user_id = true →
      truthyStr body.message = true →
      (chatProcessHandler method body penv).status = if penv.n8nOk then 200 else 500) := by
  refine ⟨?_, ?_, ?_, ?_⟩
  · rintro rfl
    exact ⟨rfl, rfl⟩
  · intro h1 h2
    constructor <;> simp [chatProcessHandler, chatHandler, h1, h2]
  · rintro rfl h
    constructor
    · simp [chatProcessHandler, h]
    · simp [chatHandler, h]
  · rintro rfl hu hm
    cases hn : penv.n8nOk <;> simp [chatProcessHandler, hu, hm, hn]

/-- C7, witness: a `POST` to `chat-process` with `user_id` set and
`message` missing gets `400` with details naming `message` as missing. -/
theorem C7_proxy_contract_witness :
    chatProcessHandler HttpMethod.post ⟨some "u1", none, none⟩ ⟨true⟩
      = ⟨400, some (ResponseDetails.missing false true)⟩ := by
  have h := ((C7_proxy_contract HttpMethod.post ⟨some "u1", none, none⟩ ⟨true⟩ none).2.2.1
    rfl (by norm_num [truthyStr])).1
  simpa [truthyStr] using h

/-! ## Claim C8 — quantity validation before any network call -/

/-- C8.  A meal-log submission containing a food item with quantity ≤ 0
fails `mealLogSchema` parsing inside `submitMealLog`, so the logging
service — and hence any network or database call — is never reached and
the submission fails. -/
theorem C8_quantity_validation (m : MealLogInput) (i : FoodItemInput)
    (hm : i ∈ m.foodItems) (hq : i.quantity ≤ 0) (serviceOk : Bool) :
    mealLogOk m = false ∧
    (submitMealLog serviceOk m).serviceCalled = false ∧
    (submitMealLog serviceOk m).success = false := by
  have hqbad : ¬((1 : ℚ) / 10 ≤ i.quantity) := by
    intro hx
    have h10 := le_trans hx hq
    norm_num at h10
  have hqbad2 : ¬((10 : ℚ)⁻¹ ≤ i.quantity) := by
    rw [← one_div]
    exact hqbad
  have hio : foodItemOk i = false := by
    rw [foodItemOk]
    simp [hqbad, hqbad2]
  have hall : m.foodItems.all foodItemOk = false := by
    rw [List.all_eq_false]
    exact ⟨i, hm, by simp [hio]⟩
  have hmo : mealLogOk m = false := by
    rw [mealLogOk]
    simp [hall]
  refine ⟨hmo, ?_, ?_⟩ <;> simp [submitMealLog, hmo]

/-- C8, witness: a one-item meal whose item has quantity `0` never reaches
the logging service. -/
theorem C8_quantity_validation_witness :
    (submitMealLog true
      ⟨MealType.lunch, "2026-01-01", "12:00",
        [⟨"Rice", 100, 2, 20, 1, 0, "g", none⟩], none⟩).serviceCalled = false :=
  (C8_quantity_validation
    ⟨MealType.lunch, "2026-01-01", "12:00", [⟨"Rice", 100, 2, 20, 1, 0, "g", none⟩], none⟩
    ⟨"Rice", 100, 2, 20, 1, 0, "g", none⟩
    (by simp) (by norm_num) true).2.1

/-! ## Claims C9 and C10 — meal-log persistence order and failure behaviour -/

/-- C9.  When both inserts succeed, `logMeal` first appends the parent
`meal_logs` row and then appends one `meal_food_items` row per food item,
each carrying the id returned for the parent row (`meal_log_id`). -/
theorem C9_parent_then_items (env : MealEnv) (db : MealDb) (m : MealServiceData)
    (h1 : env.mealLogInsertError = none) (h2 : env.foodItemsInsertError = none) :
    (logMeal env db m).db.meal_logs = db.meal_logs ++ [parentMealRow db m] ∧
    (logMeal env db m).db.meal_food_items
      = db.meal_food_items ++ m.foodItems.map (toFoodItemRow (parentMealRow db m).id) ∧
    (∀ r ∈ m.foodItems.map (toFoodItemRow (parentMealRow db m).id),
      r.meal_log_id = (parentMealRow db m).id) := by
  refine ⟨?_, ?_, ?_⟩
  · cases hw : env.webhookOk <;> simp [logMeal, h1, h2, hw]
  · cases hw : env.webhookOk <;> simp [logMeal, h1, h2, hw]
  · intro r hr
    rcases List.mem_map.mp hr with ⟨x, hx, hxr⟩
    rw [← hxr]
    rfl

/-- C9, witness: logging a one-item meal into an empty database stores the
parent row with id `0` and one child row referencing it. -/
theorem C9_parent_then_items_witness :
    (logMeal ⟨none, none, true⟩ ⟨0, [], []⟩
        ⟨"u1", "lunch", "2026-01-01", "12:00",
          [⟨"Rice", 100, 2, 20, 1, 1, "g", none⟩], none, "t0"⟩).db.meal_food_items
      = [toFoodItemRow 0 ⟨"Rice", 100, 2, 20, 1, 1, "g", none⟩] := by
  have h := (C9_parent_then_items ⟨none, none, true⟩ ⟨0, [], []⟩
    ⟨"u1", "lunch", "2026-01-01", "12:00",
      [⟨"Rice", 100, 2, 20, 1, 1, "g", none⟩], none, "t0"⟩ rfl rfl).2.1
  simpa [parentMealRow] using h

/-- C10.  If the parent insert succeeded but the food-items insert or the
webhook call fails, `logMeal` throws yet performs no compensation: the
parent `meal_logs` row stays persisted, and in the food-items-failure case
no child row exists for it, leaving a parent meal row with no food items. -/
theorem C10_no_compensation (env : MealEnv) (db : MealDb) (m : MealServiceData)
    (h1 : env.mealLogInsertError = none)
    (h2 : env.foodItemsInsertError.isSome ∨ env.webhookOk = false)
    (hfresh : ∀ r ∈ db.meal_food_items, r.meal_log_id ≠ db.nextId) :
    (logMeal env db m).thrown.isSome ∧
    parentMealRow db m ∈ (logMeal env db m).db.meal_logs ∧
    (∀ e, env.foodItemsInsertError = some e →
      (logMeal env db m).db.meal_food_items = db.meal_food_items ∧
      (∀ r ∈ (logMeal env db m).db.meal_food_items,
        r.meal_log_id ≠ (parentMealRow db m).id)) := by
  cases hf : env.foodItemsInsertError with
  | some e =>
    refine ⟨?_, ?_, ?_⟩
    · simp [logMeal, h1, hf]
    · simp [logMeal, h1, hf]
    · intro e2 _
      constructor
      · simp [logMeal, h1, hf]
      · intro r hr
        simp only [logMeal, h1, hf] at hr
        exact hfresh r hr
  | none =>
    have hw : env.webhookOk = false := by
      rcases h2 with h2 | h2
      · rw [hf] at h2
        simp at h2
      · exact h2
    refine ⟨?_, ?_, ?_⟩
    · simp [logMeal, h1, hf, hw]
    · simp [logMeal, h1, hf, hw]
    · intro e2 he2
      cases he2

/-- C10, witness: with a failing food-items insert on an empty database,
`logMeal` throws, the parent row remains, and no child row references it. -/
theorem C10_no_compensation_witness :
    (logMeal ⟨none, some "insert failed", true⟩ ⟨0, [], []⟩
        ⟨"u1", "lunch", "2026-01-01", "12:00",
          [⟨"Rice", 100, 2, 20, 1, 1, "g", none⟩], none, "t0"⟩).thrown.isSome ∧
    parentMealRow ⟨0, [], []⟩
        ⟨"u1", "lunch", "2026-01-01", "12:00",
          [⟨"Rice", 100, 2, 20, 1, 1, "g", none⟩], none, "t0"⟩
      ∈ (logMeal ⟨none, some "insert failed", true⟩ ⟨0, [], []⟩
        ⟨"u1", "lunch", "2026-01-01", "12:00",
          [⟨"Rice", 100, 2, 20, 1, 1, "g", none⟩], none, "t0"⟩).db.meal_logs := by
  have h := C10_no_compensation ⟨none, some "insert failed", true⟩ ⟨0, [], []⟩
    ⟨"u1", "lunch", "2026-01-01", "12:00",
      [⟨"Rice", 100, 2, 20, 1, 1, "g", none⟩], none, "t0"⟩ rfl (Or.inl rfl)
    (by intro r hr; cases hr)
  exact ⟨h.1, h.2.1⟩
